import Mathlib

/-!
Verification of the Crunchyroll content-script plugin
(`src/plugins/crunchyroll/plugin.ts`) of the ExtensionPlugins repository.

The plugin's numeric values (video `currentTime`, `duration`, message
payload fields) are JavaScript numbers; we model them as `JSVal`:
either `undefined` (an absent field), `NaN`, or a rational number.
The DOM is modelled as a query function from CSS selector strings to
optional video elements, and the cross-frame machinery as explicit
message values and state transitions, translated clause by clause from
the TypeScript source.
-/

/-- A JavaScript numeric value as it can appear in an untyped message
payload or a DOM property: `undefined` (field absent), `NaN`, or a
finite number (modelled as a rational). -/
inductive JSVal where
  | undef : JSVal
  | nan : JSVal
  | num : ℚ → JSVal
deriving DecidableEq

/-- JS comparison `v > 0`: `undefined > 0` and `NaN > 0` are both `false`. -/
def jsGtZero : JSVal → Bool
  | .num q => decide (0 < q)
  | _ => false

/-- `Number.isNaN(v)`: true only for the genuine `NaN` value
(`Number.isNaN(undefined)` is `false`, there is no coercion). -/
def jsIsNaN : JSVal → Bool
  | .nan => true
  | _ => false

/-- JS comparison `v >= b` against a numeric literal `b`:
`false` when `v` is `NaN` or `undefined`. -/
def jsGe (v : JSVal) (b : ℚ) : Bool :=
  match v with
  | .num q => decide (b ≤ q)
  | _ => false

/-- `Math.min(a, b)` on two finite numbers. -/
def ratMin (a b : ℚ) : ℚ := if a ≤ b then a else b

/-- The `iFrameVideoData` payload of a cross-frame report
(`interface IFrameVideoData`, plugin.ts:15-20). `currTime` and `dur`
are `JSVal` because a raw `window.postMessage` payload need not carry
them (the listener at plugin.ts:77-97 reads them off an untyped
`event.data`). -/
structure IFrameVideoData where
  iFrameVideo : Bool
  currTime : JSVal
  dur : JSVal
  paused : Bool
deriving DecidableEq

/-- A `message` event arriving on `window` (plugin.ts:77): either some
unrelated payload (`event.data?.iFrameVideoData` absent), or a payload
carrying an `iFrameVideoData` object. -/
inductive WindowMessage where
  | other : WindowMessage
  | videoData : IFrameVideoData → WindowMessage

/-- The `message` listener installed in `onLoad` (plugin.ts:77-97),
restricted to its effect on the cached `this.iFrameVideoData`:
the payload is stored only when `newData.iFrameVideo && newData.dur > 0`;
every other message leaves the cache unchanged. -/
def onWindowMessage (st : Option IFrameVideoData) : WindowMessage → Option IFrameVideoData
  | .other => st
  | .videoData d => if d.iFrameVideo && jsGtZero d.dur then some d else st

/-- Whether the `message` listener additionally schedules another
`initializeEpisodeTracking` call (plugin.ts:88-94): only when the stored
payload was accepted, `this.initializeAttempts > 0`, and (inside the
scheduled callback) `this.episodeData` is still unset. -/
def messageTriggersInit (attempts : ℕ) (hasEpisodeData : Bool) (d : IFrameVideoData) : Bool :=
  d.iFrameVideo && jsGtZero d.dur && decide (0 < attempts) && !hasEpisodeData

/-- The observable state of a video element as the plugin reads it:
`currentTime`, `duration`, `paused`, `readyState`, `src`, `currentSrc`
(an empty string models an absent/falsy `src`). -/
structure VideoHandle where
  currentTime : JSVal
  duration : JSVal
  paused : Bool
  readyState : ℕ
  src : String
  currentSrc : String
deriving DecidableEq

/-- The synthetic video-element object built from cached iframe data in
`findVideoElement` (plugin.ts:230-238): `readyState` 4, src fields
`"iframe-video"`. -/
def iframeHandle (d : IFrameVideoData) : VideoHandle :=
  { currentTime := d.currTime
    duration := d.dur
    paused := d.paused
    readyState := 4
    src := "iframe-video"
    currentSrc := "iframe-video" }

/-- A document, modelled by its `querySelector` behaviour on the
selector strings the plugin uses. -/
structure Doc where
  query : String → Option VideoHandle

/-- The guard `video && (video.duration > 0 || video.src || video.currentSrc)`
(plugin.ts:255 and plugin.ts:291-294): a found element is accepted when it
has a positive duration or a truthy (non-empty) source. -/
def videoUsable (v : VideoHandle) : Bool :=
  jsGtZero v.duration || !v.src.isEmpty || !v.currentSrc.isEmpty

/-- The selector loop pattern of `findVideoElement` and
`searchIframesForVideo`: return the first queried element that passes
`videoUsable`, else keep scanning. -/
def queryFirstUsable (doc : Doc) : List String → Option VideoHandle
  | [] => none
  | s :: rest =>
    match doc.query s with
    | some v => if videoUsable v then some v else queryFirstUsable doc rest
    | none => queryFirstUsable doc rest

/-- The selector list searched in the main document (plugin.ts:242-250). -/
def mainDocumentSelectors : List String :=
  ["video#player0", "video#player_html5_api",
   "video[data-testid=\"vilos-player_html5_api\"]", "video.html5-main-video",
   "video", ".vilos-player video", "[data-testid=\"vilos-player\"] video"]

/-- The selector list used inside each same-origin iframe (plugin.ts:282-287). -/
def iframeSelectors : List String :=
  ["video#player0", "video#player_html5_api",
   "video[data-testid=\"vilos-player_html5_api\"]", "video"]

/-- The check at the top of `findVideoElement` (plugin.ts:223-239): the
cached `iFrameVideoData` is turned into a synthetic handle when
`iFrameVideo && !Number.isNaN(dur) && dur > 0`.  The source stores no
receipt timestamp and consults no clock, so this is the whole of the
"latest report" logic. -/
def latestIFrameHandle : Option IFrameVideoData → Option VideoHandle
  | some d =>
    if d.iFrameVideo && !jsIsNaN d.dur && jsGtZero d.dur then some (iframeHandle d)
    else none
  | none => none

/-- A cached remote report paired with the wall-clock instant at which it
was received.  The TypeScript source keeps no such timestamp; pairing the
data with one makes it possible to state (and refute) freshness claims:
`latestAt` below is the source's lookup, which ignores the clock. -/
structure TimedReport where
  data : IFrameVideoData
  receivedAt : ℚ

/-- The cached-report lookup of `findVideoElement` performed at query
time `_now`.  Since plugin.ts:223-239 reads only `this.iFrameVideoData`
and never a clock, the result does not depend on `_now` or on
`receivedAt`. -/
def latestAt (r : TimedReport) (_now : ℚ) : Option VideoHandle :=
  latestIFrameHandle (some r.data)

/-- What a nested `iframe` offers the probe at plugin.ts:277-278:
access denied (cross-origin `contentWindow.document` throws), an
inaccessible/null document, or a readable document. -/
inductive IframeContent where
  | denied : IframeContent
  | noDoc : IframeContent
  | doc : Doc → IframeContent

/-- Reading one iframe's document and running the selector loop over it
(the body of the `try` block at plugin.ts:275-313): a cross-origin frame
raises (`Except.error`), an inaccessible frame yields nothing, and a
readable one yields the first usable video if any. -/
def probeIframe : IframeContent → Except Unit (Option VideoHandle)
  | .denied => .error ()
  | .noDoc => .ok none
  | .doc d => .ok (queryFirstUsable d iframeSelectors)

/-- `searchIframesForVideo` (plugin.ts:270-320): each frame's probe runs
inside `try { ... } catch { ... }`; an access failure is logged and the
loop continues with the next frame; the function returns the first video
found, else `null`. -/
def searchIframesForVideo : List IframeContent → Option VideoHandle
  | [] => none
  | f :: rest =>
    match probeIframe f with
    | .error _ => searchIframesForVideo rest
    | .ok none => searchIframesForVideo rest
    | .ok (some v) => some v

/-- `findVideoElement` (plugin.ts:218-268): (1) serve the cached
`iFrameVideoData` if it passes the validity check; (2) otherwise scan the
main document's selector list; (3) otherwise call `searchIframesForVideo`
— whose return value the source discards (plugin.ts:262) — trigger the
cross-origin detection side effects, and return `null`. -/
def findVideoElement (st : Option IFrameVideoData) (doc : Doc)
    (iframes : List IframeContent) : Option VideoHandle :=
  match latestIFrameHandle st with
  | some v => some v
  | none =>
    match queryFirstUsable doc mainDocumentSelectors with
    | some v => some v
    | none =>
      let _ := searchIframesForVideo iframes
      none

/-- Substring test over character lists: does the second list start with
the first? Used to model the JavaScript `String.prototype.includes`. -/
def leadsWith : List Char → List Char → Bool
  | [], _ => true
  | _ :: _, [] => false
  | a :: as, b :: bs => a == b && leadsWith as bs

/-- Does `sub` occur contiguously inside the list? -/
def hasSublist (sub : List Char) : List Char → Bool
  | [] => leadsWith sub []
  | c :: rest => leadsWith sub (c :: rest) || hasSublist sub rest

/-- JS `s.includes(sub)`. -/
def strIncludes (s sub : String) : Bool :=
  hasSublist sub.toList s.toList

/-- `isCrunchyrollWatchPage` (plugin.ts:557-559):
`url.includes('crunchyroll.com') && url.includes('watch')`. -/
def isCrunchyrollWatchPage (url : String) : Bool :=
  strIncludes url "crunchyroll.com" && strIncludes url "watch"

/-- Decimal digit accumulator for `jsNumber`. -/
def decDigitsVal (cs : List Char) : ℕ :=
  cs.foldl (fun a c => a * 10 + (c.toNat - 48)) 0

/-- JS whitespace test for the characters relevant to `String.prototype.trim`. -/
def isJsWhitespace (c : Char) : Bool :=
  c == ' ' || c == '\t' || c == '\n' || c == '\r'

/-- Strip leading and trailing whitespace from a character list. -/
def trimChars (cs : List Char) : List Char :=
  ((cs.dropWhile isJsWhitespace).reverse.dropWhile isJsWhitespace).reverse

/-- Model of the JavaScript `Number(string)` coercion used at
plugin.ts:145 (`Number(episodeInfo.episodeNumber)`), covering the
signed decimal forms (`"12"`, `"+3"`, `"-4.5"`, `""` ↦ 0); every other
string — in particular the alphanumeric episode slugs the extractor can
fall back to — coerces to `NaN`.  (Hexadecimal/exponent literals, which
cannot occur in an extracted episode number, are also sent to `NaN`.) -/
def jsNumber (s : String) : JSVal :=
  let t := trimChars s.toList
  if t.isEmpty then .num 0
  else
    let sb : ℚ × List Char :=
      match t with
      | '-' :: rest => (-1, rest)
      | '+' :: rest => (1, rest)
      | cs => (1, cs)
    let intPart := sb.2.takeWhile Char.isDigit
    let rest := sb.2.dropWhile Char.isDigit
    match rest with
    | [] =>
      if intPart.isEmpty then .nan
      else .num (sb.1 * (decDigitsVal intPart : ℚ))
    | '.' :: frac =>
      if frac.all Char.isDigit && !(intPart.isEmpty && frac.isEmpty) then
        .num (sb.1 * ((decDigitsVal intPart : ℚ) +
          (decDigitsVal frac : ℚ) / (10 : ℚ) ^ frac.length))
      else .nan
    | _ => .nan

/-- Decimal rendering of a rational, exact when the denominator divides a
power of ten; used to model JS number-to-string interpolation inside the
storage-key template literal.  (The plugin only interpolates episode
ordinals — integers — or `NaN` there.) -/
def ratDecimalString (q : ℚ) : String :=
  let sgn := if q < 0 then "-" else ""
  let a := |q|
  match (List.range 31).find? (fun k => (a * (10 : ℚ) ^ k).den = 1) with
  | some k =>
    let m := (a * (10 : ℚ) ^ k).num.natAbs
    if k = 0 then sgn ++ toString m
    else
      let s := toString m
      let s := if s.length ≤ k then String.mk (List.replicate (k + 1 - s.length) '0') ++ s else s
      sgn ++ s.take (s.length - k) ++ "." ++ s.drop (s.length - k)
  | none => sgn ++ toString a.num ++ "/" ++ toString a.den

/-- JS template-literal rendering of a `JSVal`. -/
def jsValToString : JSVal → String
  | .undef => "undefined"
  | .nan => "NaN"
  | .num q => ratDecimalString q

/-- The page metadata consumed by `trackProgress` — the fields of
`extractEpisodeInfo`'s result that feed the produced `Status`
(plugin.ts:421-453). -/
structure EpisodeInfo where
  title : String
  episodeNumber : String
  series : String
deriving DecidableEq

/-- The `Status` record built at plugin.ts:143-149. -/
structure Status where
  title : String
  progress : JSVal
  finished : Bool
  currentTime : JSVal
  duration : JSVal
deriving DecidableEq

/-- The percentage computed at plugin.ts:140,
`Math.min((currentTime / duration) * 100, 100)`, for a video whose
duration is the non-zero number `dur`; a `NaN`/`undefined` current time
propagates to `NaN` exactly as in JS float arithmetic. -/
def progressPercent (ct : JSVal) (dur : ℚ) : JSVal :=
  match ct with
  | .num c => .num (ratMin (c / dur * 100) 100)
  | _ => .nan

/-- The body of `trackProgress` from the resolved video element on
(plugin.ts:132-156): bail out with `null` on the guard
`!duration || duration === 0` (true precisely for a missing, `NaN` or
zero duration), otherwise build the `Status`: `progress` is
`Number(episodeInfo.episodeNumber)`, `finished` compares the computed
percentage against 90. -/
def tickFromHandle (v : VideoHandle) (info : EpisodeInfo) : Option Status :=
  match v.duration with
  | .undef => none
  | .nan => none
  | .num q =>
    if q = 0 then none
    else
      some { title := info.title
             progress := jsNumber info.episodeNumber
             finished := jsGe (progressPercent v.currentTime q) 90
             currentTime := v.currentTime
             duration := JSVal.num q }

/-- `trackProgress` (plugin.ts:119-156): `null` off a Crunchyroll watch
page, `null` when no video element resolves, else the tick body above. -/
def trackProgress (url : String) (st : Option IFrameVideoData) (doc : Doc)
    (iframes : List IframeContent) (info : EpisodeInfo) : Option Status :=
  if !isCrunchyrollWatchPage url then none
  else
    match findVideoElement st doc iframes with
    | none => none
    | some v => tickFromHandle v info

/-- The `'ended'` listener installed by `setupVideoListeners`
(plugin.ts:479-486): re-run `trackProgress`, and if it produced a
status, overwrite `finished := true` and `progress := 100` before the
final save. -/
def onEnded (url : String) (st : Option IFrameVideoData) (doc : Doc)
    (iframes : List IframeContent) (info : EpisodeInfo) : Option Status :=
  match trackProgress url st doc iframes info with
  | none => none
  | some s => some { s with finished := true, progress := JSVal.num 100 }

/-- `maxInitializeAttempts` (plugin.ts:159). -/
def maxInitializeAttempts : ℕ := 60

/-- What one `initializeEpisodeTracking` call does after updating the
attempt counter (plugin.ts:161-183). -/
inductive InitOutcome where
  | setup : InitOutcome
  | reschedule : ℕ → InitOutcome
  | giveUp : InitOutcome
deriving DecidableEq

/-- One call of `initializeEpisodeTracking` (plugin.ts:161-183) as a
transition on the `initializeAttempts` counter: increment; on success set
up tracking and reset the counter; on failure reschedule with delay
1000ms for the first ten attempts and 2000ms afterwards while the
incremented counter is below `maxInitializeAttempts`; otherwise give up
(scheduling nothing) and reset the counter. -/
def initStep (attempts : ℕ) (videoFound : Bool) : ℕ × InitOutcome :=
  let a := attempts + 1
  if videoFound then (0, .setup)
  else if a < maxInitializeAttempts then
    (a, .reschedule (if a < 10 then 1000 else 2000))
  else
    (0, .giveUp)

/-- The attempt counter after `n` consecutive failing
`initializeEpisodeTracking` calls starting from a fresh page match. -/
def attemptsAfterFails : ℕ → ℕ
  | 0 => 0
  | n + 1 => (initStep (attemptsAfterFails n) false).1

/-- `onPageMatch` (plugin.ts:105-117) starts discovery (after a 2s delay)
exactly when the URL is a Crunchyroll watch page. -/
def onPageMatchTriggersInit (url : String) : Bool :=
  isCrunchyrollWatchPage url

/-- Result of one asynchronous collaborator call (`storage.set` or
`runtime.sendMessage`): the promise resolves or rejects with an error. -/
inductive AsyncResult where
  | resolved : AsyncResult
  | rejected : String → AsyncResult
deriving DecidableEq

/-- How a collaborator call's failure surfaces: as an exception reaching
the synchronous caller, as a `console.error` log entry, or as an
unhandled promise rejection. -/
structure EffectOutcome where
  callerException : Option String
  logged : List String
  unhandledRejection : Option String
deriving DecidableEq

/-- `saveProgress` (plugin.ts:524-544): nothing happens without an API or
episode data; otherwise the awaited `storage.set` sits inside
`try { ... } catch (error) { console.error(...) }`, so a rejection is
caught and logged and nothing reaches the caller. -/
def saveProgressOutcome (hasApi hasEpisodeData : Bool) (storageSet : AsyncResult) : EffectOutcome :=
  if !(hasApi && hasEpisodeData) then ⟨none, [], none⟩
  else
    match storageSet with
    | .resolved => ⟨none, [], none⟩
    | .rejected e => ⟨none, [e], none⟩

/-- `sendStatusUpdate` (plugin.ts:546-555): `runtime.sendMessage` is
called with no `try`/`catch` and its promise is never awaited or given a
rejection handler, so a rejection is neither caught nor logged — it
becomes an unhandled rejection (and does not reach the synchronous
caller). -/
def sendStatusUpdateOutcome (hasApi : Bool) (send : AsyncResult) : EffectOutcome :=
  if !hasApi then ⟨none, [], none⟩
  else
    match send with
    | .resolved => ⟨none, [], none⟩
    | .rejected e => ⟨none, [], some e⟩

/-- The storage key built at plugin.ts:527:
```crunchyroll_progress_${series}_${status.progress}```. -/
def storageKey (series : String) (status : Status) : String :=
  "crunchyroll_progress_" ++ series ++ "_" ++ jsValToString status.progress

/-- `trackProgress` together with its two side-effect calls
(plugin.ts:152-153): the effects run only when a status was produced, and
the returned status is the computed one whatever the collaborators do. -/
def trackProgressWithEffects (url : String) (st : Option IFrameVideoData) (doc : Doc)
    (iframes : List IframeContent) (info : EpisodeInfo) (hasEpisodeData : Bool)
    (storageSet send : AsyncResult) : Option Status × EffectOutcome × EffectOutcome :=
  match trackProgress url st doc iframes info with
  | none => (none, ⟨none, [], none⟩, ⟨none, [], none⟩)
  | some s =>
    (some s, saveProgressOutcome true hasEpisodeData storageSet,
     sendStatusUpdateOutcome true send)

/-- A valid cross-frame report: playing video, 42s into a 600s episode. -/
def sampleReport : IFrameVideoData :=
  { iFrameVideo := true, currTime := JSVal.num 42, dur := JSVal.num 600, paused := false }

/-- A locally found video element distinct from any iframe-backed handle. -/
def localVideo : VideoHandle :=
  { currentTime := JSVal.num 7
    duration := JSVal.num 1200
    paused := false
    readyState := 4
    src := "blob:local-video"
    currentSrc := "blob:local-video" }

/-- A document whose `video#player0` query returns `localVideo`. -/
def docWithLocalVideo : Doc :=
  ⟨fun s => if s = "video#player0" then some localVideo else none⟩

/-- An empty document: every query misses. -/
def emptyDoc : Doc :=
  ⟨fun _ => none⟩

/-- Page metadata of a typical episode page. -/
def sampleInfo : EpisodeInfo :=
  { title := "Episode 12", episodeNumber := "12", series := "One Piece" }

/-- A Crunchyroll watch-page URL. -/
def watchURL : String := "https://www.crunchyroll.com/watch/GRDKJ8Z2E"

theorem watchURL_is_watch_page : isCrunchyrollWatchPage watchURL = true := by decide

/-- Unfolding `tickFromHandle v info = some s`: the duration must be a
non-zero number `q` and `s` is the record built at plugin.ts:143-149. -/
theorem tickFromHandle_characterization (v : VideoHandle) (info : EpisodeInfo) (s : Status)
    (h : tickFromHandle v info = some s) :
    ∃ q : ℚ, v.duration = JSVal.num q ∧ q ≠ 0 ∧
      s = { title := info.title
            progress := jsNumber info.episodeNumber
            finished := jsGe (progressPercent v.currentTime q) 90
            currentTime := v.currentTime
            duration := JSVal.num q } := by
  obtain ⟨ct, dur, p, rs, src, csrc⟩ := v
  cases dur with
  | undef => simp [tickFromHandle] at h
  | nan => simp [tickFromHandle] at h
  | num q =>
    simp only [tickFromHandle] at h
    by_cases hq : q = 0
    · rw [if_pos hq] at h; exact absurd h (by simp)
    · rw [if_neg hq] at h
      injection h with h
      exact ⟨q, rfl, hq, h.symm⟩

/-- Unfolding `trackProgress ... = some s`: the URL passed the
watch-page guard and some video element resolved and produced `s`. -/
theorem trackProgress_characterization (url : String) (st : Option IFrameVideoData)
    (doc : Doc) (iframes : List IframeContent) (info : EpisodeInfo) (s : Status)
    (h : trackProgress url st doc iframes info = some s) :
    isCrunchyrollWatchPage url = true ∧
      ∃ v, findVideoElement st doc iframes = some v ∧ tickFromHandle v info = some s := by
  unfold trackProgress at h
  cases hw : isCrunchyrollWatchPage url with
  | false => rw [hw] at h; simp at h
  | true =>
    rw [hw] at h
    simp only [Bool.not_true, Bool.false_eq_true, if_false] at h
    refine ⟨rfl, ?_⟩
    cases hf : findVideoElement st doc iframes with
    | none => rw [hf] at h; simp at h
    | some v => rw [hf] at h; exact ⟨v, rfl, h⟩

/-- C1 counterexample: the claim "`latest()` returns the report's handle
only if it was received within the short staleness window; a report
received at t=0 and queried at t=staleness+ε yields nothing" is false:
for the valid report received at t=0 there is no positive window `w`
after which the cached-report lookup of `findVideoElement` stops serving
it — plugin.ts:218-239 stores no timestamp and consults no clock, so the
report is still served at every query time. -/
theorem C1_counterexample :
    ¬ ∃ w : ℚ, 0 < w ∧ ∀ t : ℚ, w < t →
        latestAt ⟨sampleReport, 0⟩ t = none := by
  rintro ⟨w, hw, h⟩
  have hst := h (w + 1) (by linarith)
  rw [latestAt] at hst
  exact absurd hst (by decide)

/-- C1 amended: the cached remote report is served regardless of age.
`findVideoElement`'s cached-report lookup returns the handle whenever
`iFrameVideo` is set and `dur` is a number greater than zero, at every
query time and for every receipt time — no staleness window exists, so a
report received at t=0 is still returned arbitrarily long afterwards. -/
theorem C1_stale_report_still_served (d : IFrameVideoData) (t0 t : ℚ)
    (h1 : d.iFrameVideo = true) (h2 : jsIsNaN d.dur = false) (h3 : jsGtZero d.dur = true) :
    latestAt ⟨d, t0⟩ t = some (iframeHandle d) := by
  rw [latestAt, latestIFrameHandle]
  simp [h1, h2, h3]

theorem C1_witness :
    latestAt ⟨sampleReport, 0⟩ 86400000 = some (iframeHandle sampleReport) :=
  C1_stale_report_still_served sampleReport 0 86400000 rfl rfl (by decide)

/-- C2 counterexample: the claim "whenever both the local document probe
and the remote-frame cached report produce a valid video handle,
`findVideoElement` returns the local one" is false: with a valid cached
report and a document whose `video#player0` query returns a usable local
element, `findVideoElement` returns the iframe-backed handle, which is
not the local element — plugin.ts:222-239 consults the cached report
before the document. -/
theorem C2_counterexample :
    findVideoElement (some sampleReport) docWithLocalVideo [] = some (iframeHandle sampleReport) ∧
      queryFirstUsable docWithLocalVideo mainDocumentSelectors = some localVideo ∧
      iframeHandle sampleReport ≠ localVideo := by
  refine ⟨?_, ?_, by decide⟩
  · rw [findVideoElement]
    have : latestIFrameHandle (some sampleReport) = some (iframeHandle sampleReport) := by decide
    rw [this]
  · decide

/-- C2 amended: the cached remote report wins over the local probe.
Whenever the cached `iFrameVideoData` passes the validity check
(`iFrameVideo` set, `dur` a number greater than zero), `findVideoElement`
returns the synthetic iframe-backed handle, whatever the local document
and its nested frames contain; the document is only searched when no
valid cached report exists. -/
theorem C2_remote_cache_wins (d : IFrameVideoData) (doc : Doc) (iframes : List IframeContent)
    (h1 : d.iFrameVideo = true) (h2 : jsIsNaN d.dur = false) (h3 : jsGtZero d.dur = true) :
    findVideoElement (some d) doc iframes = some (iframeHandle d) := by
  rw [findVideoElement, latestIFrameHandle]
  simp [h1, h2, h3]

theorem C2_witness :
    findVideoElement (some sampleReport) docWithLocalVideo
      [IframeContent.doc docWithLocalVideo] = some (iframeHandle sampleReport) :=
  C2_remote_cache_wins sampleReport docWithLocalVideo [IframeContent.doc docWithLocalVideo]
    rfl rfl (by decide)

/-- A video element reporting a negative duration; it passes the probe's
usability check through its non-empty `src`. -/
def negativeDurationVideo : VideoHandle :=
  { currentTime := JSVal.num 60
    duration := JSVal.num (-600)
    paused := false
    readyState := 4
    src := "blob:negative-duration"
    currentSrc := "blob:negative-duration" }

/-- A document whose `video#player0` query returns `negativeDurationVideo`. -/
def docWithNegativeDuration : Doc :=
  ⟨fun s => if s = "video#player0" then some negativeDurationVideo else none⟩

/-- A video element with duration `0` (still loading), found through its
non-empty `src`. -/
def zeroDurationVideo : VideoHandle :=
  { currentTime := JSVal.num 3
    duration := JSVal.num 0
    paused := false
    readyState := 1
    src := "blob:zero-duration"
    currentSrc := "blob:zero-duration" }

/-- A document whose `video#player0` query returns `zeroDurationVideo`. -/
def docWithZeroDuration : Doc :=
  ⟨fun s => if s = "video#player0" then some zeroDurationVideo else none⟩

/-- C3 counterexample: the claim "for every resolved video state with
duration ≤ 0 (zero, NaN, or negative) `trackProgress` produces no
Status" is false for negative durations: the guard at plugin.ts:135 is
`!duration || duration === 0`, which a negative number passes, so with a
resolved element of duration `-600` the tick emits a Status (with a
degenerate `finished` computed from a negative percentage). -/
theorem C3_counterexample :
    trackProgress watchURL none docWithNegativeDuration [] sampleInfo =
      some { title := "Episode 12"
             progress := jsNumber "12"
             finished := jsGe (progressPercent (JSVal.num 60) (-600)) 90
             currentTime := JSVal.num 60
             duration := JSVal.num (-600) } ∧
      jsGe (progressPercent (JSVal.num 60) (-600)) 90 = false := by
  constructor
  · rfl
  · simp only [progressPercent, jsGe, ratMin]
    norm_num

/-- C3 amended: `trackProgress` produces no Status whenever the resolved
video state's duration is JS-falsy — `undefined`, `NaN` or exactly `0` —
returning `null` before computing any percentage; a (DOM-unreachable)
negative duration, however, passes the guard. -/
theorem C3_null_on_falsy_duration (url : String) (st : Option IFrameVideoData)
    (doc : Doc) (iframes : List IframeContent) (info : EpisodeInfo) (v : VideoHandle)
    (hfind : findVideoElement st doc iframes = some v)
    (hdur : v.duration = JSVal.undef ∨ v.duration = JSVal.nan ∨ v.duration = JSVal.num 0) :
    trackProgress url st doc iframes info = none := by
  unfold trackProgress
  cases hw : isCrunchyrollWatchPage url with
  | false => simp [hw]
  | true =>
    simp only [hw, Bool.not_true, Bool.false_eq_true, if_false]
    rw [hfind]
    rcases hdur with h | h | h <;> simp [tickFromHandle, h]

theorem C3_witness :
    trackProgress watchURL none docWithZeroDuration [] sampleInfo = none :=
  C3_null_on_falsy_duration watchURL none docWithZeroDuration [] sampleInfo
    zeroDurationVideo (by decide) (Or.inr (Or.inr rfl))

/-- The attempt counter after `n` consecutive failures equals `n`, for
`n` up to the bound: each failing call below the bound increments. -/
theorem attemptsAfterFails_eq_self (n : ℕ) (h : n ≤ 59) : attemptsAfterFails n = n := by
  induction n with
  | zero => rfl
  | succ k ih =>
    have hk : attemptsAfterFails k = k := ih (by omega)
    have hlt : k + 1 < maxInitializeAttempts := by
      rw [maxInitializeAttempts]; omega
    show (initStep (attemptsAfterFails k) false).1 = k + 1
    rw [hk, initStep]
    simp [hlt]

set_option maxRecDepth 8000 in
/-- C4: after `maxAttempts` (60) consecutive failed discovery attempts,
`initializeEpisodeTracking` gives up: the 60th failing call schedules no
further discovery tick (while every earlier failing call reschedules
one), the counter resets to 0, and with the counter at 0 the cross-frame
message listener cannot re-enter discovery (plugin.ts:88) — only a new
page-match event on a watch page starts it again (plugin.ts:105-117). -/
theorem C4_discovery_terminal_after_max_attempts :
    (initStep (attemptsAfterFails 59) false).2 = InitOutcome.giveUp ∧
      (initStep (attemptsAfterFails 59) false).1 = 0 ∧
      (∀ n : ℕ, n < 59 →
        (initStep (attemptsAfterFails n) false).2 =
          InitOutcome.reschedule (if n + 1 < 10 then 1000 else 2000)) ∧
      (∀ (hasEp : Bool) (d : IFrameVideoData),
        messageTriggersInit (initStep (attemptsAfterFails 59) false).1 hasEp d = false) ∧
      onPageMatchTriggersInit watchURL = true := by
  refine ⟨by decide, by decide, ?_, ?_, by decide⟩
  · intro n hn
    have hs : attemptsAfterFails n = n := attemptsAfterFails_eq_self n (by omega)
    have hlt : n + 1 < maxInitializeAttempts := by
      rw [maxInitializeAttempts]; omega
    rw [hs, initStep]
    simp [hlt]
  · intro hasEp d
    have h0 : (initStep (attemptsAfterFails 59) false).1 = 0 := by decide
    rw [h0, messageTriggersInit]
    simp

set_option maxRecDepth 8000 in
theorem C4_witness :
    (initStep (attemptsAfterFails 4) false).2 =
        InitOutcome.reschedule (if 4 + 1 < 10 then 1000 else 2000) ∧
      messageTriggersInit (initStep (attemptsAfterFails 59) false).1 false sampleReport = false :=
  ⟨C4_discovery_terminal_after_max_attempts.2.2.1 4 (by decide),
   C4_discovery_terminal_after_max_attempts.2.2.2.1 false sampleReport⟩

/-- `ratMin` is the lattice `min` on ℚ. -/
theorem ratMin_eq_min (a b : ℚ) : ratMin a b = min a b := by
  rw [ratMin, min_def]

/-- The video element at the end-of-media scenario: 599.8s of 600s. -/
def endedVideo : VideoHandle :=
  { currentTime := JSVal.num (2999 / 5)
    duration := JSVal.num 600
    paused := true
    readyState := 4
    src := "blob:ended-video"
    currentSrc := "blob:ended-video" }

/-- A document whose `video#player0` query returns `endedVideo`. -/
def docWithEndedVideo : Doc :=
  ⟨fun s => if s = "video#player0" then some endedVideo else none⟩

/-- C5: every emitted Status has `finished = true` whenever the computed
percentage is ≥ 90 (plugin.ts:146), and the `'ended'` handler's Status is
forced to `finished = true`, `progress = 100` regardless of the computed
percentage (plugin.ts:479-486). -/
theorem C5_finished_threshold_and_ended_override :
    (∀ (v : VideoHandle) (info : EpisodeInfo) (s : Status) (q : ℚ),
        tickFromHandle v info = some s → v.duration = JSVal.num q →
        jsGe (progressPercent v.currentTime q) 90 = true → s.finished = true) ∧
      (∀ (url : String) (st : Option IFrameVideoData) (doc : Doc)
          (iframes : List IframeContent) (info : EpisodeInfo) (s : Status),
        onEnded url st doc iframes info = some s →
        s.finished = true ∧ s.progress = JSVal.num 100) := by
  constructor
  · intro v info s q h hd hge
    obtain ⟨q', hq', hne, rfl⟩ := tickFromHandle_characterization v info s h
    rw [hd] at hq'
    injection hq' with hq'
    subst hq'
    simpa using hge
  · intro url st doc iframes info s h
    unfold onEnded at h
    cases ht : trackProgress url st doc iframes info with
    | none => rw [ht] at h; simp at h
    | some s0 =>
      rw [ht] at h
      injection h with h
      subst h
      exact ⟨rfl, rfl⟩

/-- C5 witness at the spec's scenario: `currentTime = 599.8`,
`duration = 600` with an `'ended'` signal yields a Status with
`progress = 100` and `finished = true` even though the raw percentage is
2999/30 ≈ 99.97. -/
theorem C5_witness :
    (Status.mk "Episode 12" (JSVal.num 100) true (JSVal.num (2999 / 5))
        (JSVal.num 600)).finished = true ∧
      (Status.mk "Episode 12" (JSVal.num 100) true (JSVal.num (2999 / 5))
        (JSVal.num 600)).progress = JSVal.num 100 :=
  C5_finished_threshold_and_ended_override.2 watchURL none docWithEndedVideo [] sampleInfo
    (Status.mk "Episode 12" (JSVal.num 100) true (JSVal.num (2999 / 5)) (JSVal.num 600)) rfl

/-- C6: for a valid state (`duration = q > 0`, `currentTime = c ≥ 0`) the
tick's percentage (plugin.ts:140) equals `min(currentTime/duration*100, 100)`
and lies within [0, 100]. -/
theorem C6_percentage_formula_and_bounds (c q : ℚ) (hq : 0 < q) (hc : 0 ≤ c) :
    progressPercent (JSVal.num c) q = JSVal.num (min (c / q * 100) 100) ∧
      0 ≤ min (c / q * 100) 100 ∧ min (c / q * 100) 100 ≤ 100 := by
  refine ⟨?_, le_min (mul_nonneg (div_nonneg hc hq.le) (by norm_num)) (by norm_num),
    min_le_right _ _⟩
  simp [progressPercent, ratMin_eq_min]

theorem C6_witness :
    progressPercent (JSVal.num 60) 600 = JSVal.num (min ((60 : ℚ) / 600 * 100) 100) ∧
      0 ≤ min ((60 : ℚ) / 600 * 100) 100 ∧ min ((60 : ℚ) / 600 * 100) 100 ≤ 100 :=
  C6_percentage_formula_and_bounds 60 600 (by norm_num) (by norm_num)

/-- C7 counterexample: the claim "a report is cached only if the message
is a recognized report shape carrying a duration and a current time" is
false for the current time: the listener at plugin.ts:81-96 checks only
`newData.iFrameVideo && newData.dur > 0`, so a payload missing `currTime`
is cached all the same. -/
theorem C7_counterexample :
    onWindowMessage none (WindowMessage.videoData
        { iFrameVideo := true, currTime := JSVal.undef, dur := JSVal.num 600, paused := false }) =
      some { iFrameVideo := true, currTime := JSVal.undef, dur := JSVal.num 600, paused := false } := by
  decide

/-- C7 amended: an incoming cross-frame message caches a report exactly
when its `iFrameVideoData` payload has `iFrameVideo` set and a numeric
`dur > 0`; the current time is not validated.  A payload without
`iFrameVideoData`, or one missing `dur` (in particular), is ignored, not
errored: nothing is cached and the session state is unchanged. -/
theorem C7_report_caching_validation (st : Option IFrameVideoData) (d : IFrameVideoData) :
    (onWindowMessage st WindowMessage.other = st) ∧
      (d.dur = JSVal.undef → onWindowMessage st (WindowMessage.videoData d) = st) ∧
      (d.iFrameVideo = true → jsGtZero d.dur = true →
        onWindowMessage st (WindowMessage.videoData d) = some d) := by
  refine ⟨rfl, ?_, ?_⟩
  · intro h
    simp [onWindowMessage, jsGtZero, h]
  · intro h1 h2
    simp [onWindowMessage, h1, h2]

theorem C7_witness :
    onWindowMessage (some sampleReport) (WindowMessage.videoData
        { iFrameVideo := true, currTime := JSVal.num 3, dur := JSVal.undef, paused := false }) =
        some sampleReport ∧
      onWindowMessage none (WindowMessage.videoData sampleReport) = some sampleReport :=
  ⟨(C7_report_caching_validation (some sampleReport)
      { iFrameVideo := true, currTime := JSVal.num 3, dur := JSVal.undef, paused := false }).2.1 rfl,
   (C7_report_caching_validation none sampleReport).2.2 rfl (by decide)⟩

/-- C8: a cross-origin frame raises on access (`probeIframe` errors), the
`try`/`catch` of `searchIframesForVideo` treats it as "not found here" and
continues with the remaining frames, and `findVideoElement`'s result is
entirely insensitive to the frame list — no exception propagates out and
the condition never reaches the caller (plugin.ts:270-320, 262). -/
theorem C8_cross_origin_access_contained :
    (probeIframe IframeContent.denied = Except.error ()) ∧
      (∀ rest : List IframeContent,
        searchIframesForVideo (IframeContent.denied :: rest) = searchIframesForVideo rest) ∧
      (∀ (st : Option IFrameVideoData) (doc : Doc) (iframes : List IframeContent),
        findVideoElement st doc iframes = findVideoElement st doc []) :=
  ⟨rfl, fun _ => rfl, fun _ _ _ => rfl⟩

theorem C8_witness :
    searchIframesForVideo [IframeContent.denied, IframeContent.doc docWithLocalVideo] =
        searchIframesForVideo [IframeContent.doc docWithLocalVideo] ∧
      findVideoElement none emptyDoc [IframeContent.denied] = findVideoElement none emptyDoc [] :=
  ⟨C8_cross_origin_access_contained.2.1 [IframeContent.doc docWithLocalVideo],
   C8_cross_origin_access_contained.2.2 none emptyDoc [IframeContent.denied]⟩

/-- C9 counterexample: the claim "a failure of the broadcast collaborator
(`runtime.sendMessage`) is caught and logged" is false:
`sendStatusUpdate` (plugin.ts:546-555) wraps the call in no `try`/`catch`
and attaches no rejection handler, so a rejected send is not logged — it
remains an unhandled rejection. -/
theorem C9_counterexample :
    (sendStatusUpdateOutcome true (AsyncResult.rejected "network down")).logged = [] ∧
      (sendStatusUpdateOutcome true (AsyncResult.rejected "network down")).unhandledRejection =
        some "network down" :=
  ⟨rfl, rfl⟩

/-- C9 amended: a `storage.set` failure is caught and logged inside
`saveProgress` and never reaches `trackProgress`'s caller; a
`runtime.sendMessage` failure also never reaches the synchronous caller
(the promise is fire-and-forget) but is neither caught nor logged,
remaining an unhandled rejection; in every case `trackProgress` still
returns the computed Status. -/
theorem C9_effect_failure_handling :
    (∀ r : AsyncResult, (saveProgressOutcome true true r).callerException = none) ∧
      (∀ e : String, (saveProgressOutcome true true (AsyncResult.rejected e)).logged = [e]) ∧
      (∀ r : AsyncResult, (sendStatusUpdateOutcome true r).callerException = none) ∧
      (∀ e : String,
        (sendStatusUpdateOutcome true (AsyncResult.rejected e)).logged = [] ∧
          (sendStatusUpdateOutcome true (AsyncResult.rejected e)).unhandledRejection = some e) ∧
      (∀ (url : String) (st : Option IFrameVideoData) (doc : Doc)
          (iframes : List IframeContent) (info : EpisodeInfo)
          (hasEp : Bool) (storageSet send : AsyncResult),
        (trackProgressWithEffects url st doc iframes info hasEp storageSet send).1 =
          trackProgress url st doc iframes info) := by
  refine ⟨?_, fun e => rfl, ?_, fun e => ⟨rfl, rfl⟩, ?_⟩
  · intro r
    cases r <;> rfl
  · intro r
    cases r <;> rfl
  · intro url st doc iframes info hasEp storageSet send
    unfold trackProgressWithEffects
    cases trackProgress url st doc iframes info <;> rfl

theorem C9_witness :
    (saveProgressOutcome true true (AsyncResult.rejected "disk full")).logged = ["disk full"] ∧
      (saveProgressOutcome true true (AsyncResult.rejected "disk full")).callerException = none ∧
      (trackProgressWithEffects watchURL none docWithLocalVideo [] sampleInfo true
          (AsyncResult.rejected "disk full") (AsyncResult.rejected "network down")).1 =
        trackProgress watchURL none docWithLocalVideo [] sampleInfo :=
  ⟨C9_effect_failure_handling.2.1 "disk full",
   C9_effect_failure_handling.1 (AsyncResult.rejected "disk full"),
   C9_effect_failure_handling.2.2.2.2 watchURL none docWithLocalVideo [] sampleInfo true
     (AsyncResult.rejected "disk full") (AsyncResult.rejected "network down")⟩

/-- C10: in every Status produced by `trackProgress`, the `progress`
field is `Number(episodeInfo.episodeNumber)` — the episode ordinal (NaN
when the extracted string is non-numeric) — not the computed percentage;
the percentage enters only the `finished` flag; and the storage key of
`saveProgress` (plugin.ts:527) is built from this ordinal-valued
`progress` field. -/
theorem C10_progress_is_episode_ordinal (url : String) (st : Option IFrameVideoData)
    (doc : Doc) (iframes : List IframeContent) (info : EpisodeInfo) (s : Status)
    (h : trackProgress url st doc iframes info = some s) :
    s.progress = jsNumber info.episodeNumber ∧
      s.title = info.title ∧
      (∃ q : ℚ, s.duration = JSVal.num q ∧ q ≠ 0 ∧
        s.finished = jsGe (progressPercent s.currentTime q) 90) ∧
      (∀ series : String, storageKey series s =
        "crunchyroll_progress_" ++ series ++ "_" ++ jsValToString s.progress) := by
  obtain ⟨hw, v, hfind, ht⟩ := trackProgress_characterization url st doc iframes info s h
  obtain ⟨q, hq, hne, rfl⟩ := tickFromHandle_characterization v info s ht
  exact ⟨rfl, rfl, ⟨q, rfl, hne, rfl⟩, fun series => rfl⟩

attribute [local semireducible] Rat.mul Rat.inv Rat.add Rat.sub in
theorem C10_witness :
    (Status.mk "Episode 12" (jsNumber "12") (jsGe (progressPercent (JSVal.num 7) 1200) 90)
        (JSVal.num 7) (JSVal.num 1200)).progress = jsNumber sampleInfo.episodeNumber ∧
      storageKey "One Piece" (Status.mk "Episode 12" (jsNumber "12")
          (jsGe (progressPercent (JSVal.num 7) 1200) 90) (JSVal.num 7) (JSVal.num 1200)) =
        "crunchyroll_progress_" ++ "One Piece" ++ "_" ++ jsValToString (jsNumber "12") ∧
      jsNumber "12" = JSVal.num 12 ∧
      jsNumber "GRDKJ8Z2E" = JSVal.nan :=
  ⟨(C10_progress_is_episode_ordinal watchURL none docWithLocalVideo [] sampleInfo
      (Status.mk "Episode 12" (jsNumber "12") (jsGe (progressPercent (JSVal.num 7) 1200) 90)
        (JSVal.num 7) (JSVal.num 1200)) rfl).1,
   (C10_progress_is_episode_ordinal watchURL none docWithLocalVideo [] sampleInfo
      (Status.mk "Episode 12" (jsNumber "12") (jsGe (progressPercent (JSVal.num 7) 1200) 90)
        (JSVal.num 7) (JSVal.num 1200)) rfl).2.2.2 "One Piece",
   by decide, by decide⟩
